import Mathlib

/-!
Shallow embedding of the `platonus` repository (src/script1.py and
src/script2.py): a Selenium-driven browser-automation pair of scripts.

The repository code is embedded faithfully; the external browser-control
library (selenium / the browser itself) is modelled as explicit oracle
operations whose outcomes for the bounded waits are drawn from an
environment record `Env`.  Every operation returns its result
(`Except Err`), the updated session, the list of browser-level actions it
performed, and the log entries it emitted, so that claims about
"the browser was never contacted", "the secret was never injected",
"every error is logged and propagated unchanged" and "no retry happens"
are all statable as properties of the traces.
-/

namespace Platonus

instance {ε α : Type} [DecidableEq ε] [DecidableEq α] : DecidableEq (Except ε α) := fun x y =>
  match x, y with
  | .ok a, .ok b => if h : a = b then .isTrue (by rw [h]) else .isFalse (by simp [h])
  | .ok _, .error _ => .isFalse (by simp)
  | .error _, .ok _ => .isFalse (by simp)
  | .error e, .error f => if h : e = f then .isTrue (by rw [h]) else .isFalse (by simp [h])

/-- A Python runtime value, as far as the guards in the scripts inspect it.
`isinstance(x, (int, float))` and `isinstance(x, str)` are the only type
tests performed; note that in Python `bool` is a subclass of `int`.
Finite floats are modelled as rationals (the guards only compare with 0). -/
inductive PyValue where
  | pyBool (b : Bool)
  | pyInt (n : Int)
  | pyFloat (q : ℚ)
  | pyStr (s : String)
  | pyNone
  | pyList (n : Nat)
deriving DecidableEq, Repr

/-- `isinstance(x, str)`. -/
def PyValue.isStr : PyValue → Bool
  | .pyStr _ => true
  | _ => false

/-- The underlying string of a `pyStr`; junk elsewhere (only used under `isStr`). -/
def PyValue.strVal : PyValue → String
  | .pyStr s => s
  | _ => ""

/-- `isinstance(x, (int, float))`; `True`/`False` are instances of `int`. -/
def PyValue.isNumeric : PyValue → Bool
  | .pyBool _ => true
  | .pyInt _ => true
  | .pyFloat _ => true
  | _ => false

/-- The numeric value of a numeric `PyValue` (`True` has value 1, `False` 0);
junk elsewhere (only used under `isNumeric`). -/
def PyValue.toRat : PyValue → ℚ
  | .pyBool b => if b then 1 else 0
  | .pyInt n => (n : ℚ)
  | .pyFloat q => q
  | _ => 0

/-- Python `str.startswith`: prefix test on the character sequence. -/
def pyStartsWith (s pre : String) : Bool :=
  pre.data.isPrefixOf s.data

/-- The error kinds raised by the scripts, named as in the specification:
`invalidInput` is the `ValueError` of the input guards, `elementNotFound`
the timeout of an element wait (carrying the element id), `navigationTimeout`
the timeout of the post-submit URL wait, `sessionNotLive` a use of the
driver after shutdown. -/
inductive Err where
  | invalidInput (msg : String)
  | elementNotFound (elemId : String)
  | navigationTimeout
  | sessionNotLive
deriving DecidableEq, Repr

/-- A log entry: either an info message or an error logged at a detection point. -/
inductive LogEntry where
  | info (msg : String)
  | errorLog (e : Err)
deriving DecidableEq, Repr

/-- A browser-level action, recorded in the execution trace. -/
inductive Action where
  | get (url : String)
  | sendKeys (elemId : String) (text : String)
  | click (elemId : String)
  | implicitlyWait (secs : ℚ)
  | quit
  | execScript (script : String)
  | waitPresence (elemId : String) (ok : Bool)
  | waitClickable (elemId : String) (ok : Bool)
  | waitUrlContains (sub : String) (ok : Bool)
deriving DecidableEq, Repr

/-- The session: one controlled browser instance (spec section 3).
`live` is the liveness flag, `location` the visible URL, `implicitWait`
the configured implicit wait, if any. -/
structure Session where
  live : Bool
  location : String
  implicitWait : Option ℚ
deriving DecidableEq, Repr

/-- A fresh session as produced by a successful `WebDriverManager.__init__`. -/
def initialSession : Session :=
  { live := true, location := "about:blank", implicitWait := none }

/-- The outcome of running one operation: its result, the session afterwards,
the browser actions performed, and the log entries emitted, in order. -/
structure Outcome (α : Type) where
  result : Except Err α
  session : Session
  actions : List Action
  log : List LogEntry
deriving Repr

/-- Sequencing: run `o`; on success continue with `f` on the resulting
session, accumulating traces; on error stop (the Python exception aborts
the rest of the `try` block). -/
def Outcome.andThen (o : Outcome Unit) (f : Session → Outcome Unit) : Outcome Unit :=
  match o.result with
  | .error _ => o
  | .ok _ =>
    let o2 := f o.session
    { result := o2.result, session := o2.session,
      actions := o.actions ++ o2.actions, log := o.log ++ o2.log }

/-- The environment: the browser-side outcome of each bounded wait of the
login flow (whether the condition became true within its 10-unit timeout). -/
structure Env where
  loginFieldAppears : Bool
  passFieldAppears : Bool
  submitClickable : Bool
  urlHasDashboard : Bool
deriving DecidableEq, Repr

/-! External (selenium / browser) operations.  These are not repository
code; they are modelled per the specification's contract for the external
collaborator (spec sections 4.1 and 8, Scenario A): on a live session a
page load succeeds and updates the visible location, and shutdown is
idempotent-intent, safe on an already-closed session. -/

/-- External `driver.get(url)`: on a live session, loads the page and
updates the visible location. -/
def driverGet (sess : Session) (u : String) : Outcome Unit :=
  if sess.live then
    { result := .ok (), session := { sess with location := u },
      actions := [.get u], log := [] }
  else
    { result := .error .sessionNotLive, session := sess, actions := [], log := [] }

/-- External `driver.implicitly_wait(secs)` on a live session. -/
def driverImplicitlyWait (sess : Session) (q : ℚ) : Outcome Unit :=
  if sess.live then
    { result := .ok (), session := { sess with implicitWait := some q },
      actions := [.implicitlyWait q], log := [] }
  else
    { result := .error .sessionNotLive, session := sess, actions := [], log := [] }

/-- External `driver.quit()`: releases the session; safe to call on an
already-closed session (idempotent-intent shutdown, spec section 4.1). -/
def driverQuit (sess : Session) : Outcome Unit :=
  { result := .ok (), session := { sess with live := false },
    actions := [.quit], log := [] }

/-- External `driver.execute_script(script)` on a live session. -/
def driverExecuteScript (sess : Session) (script : String) : Outcome Unit :=
  if sess.live then
    { result := .ok (), session := sess, actions := [.execScript script], log := [] }
  else
    { result := .error .sessionNotLive, session := sess, actions := [], log := [] }

/-- External `WebDriverWait(driver, 10).until(presence_of_element_located(id))`:
the bounded wait for an element to appear; `appears` is the environment's
verdict within the timeout.  On timeout selenium raises, surfaced here as
`elementNotFound` with the element id. -/
def webDriverWaitPresence (sess : Session) (elemId : String) (appears : Bool) :
    Outcome Unit :=
  if appears then
    { result := .ok (), session := sess, actions := [.waitPresence elemId true], log := [] }
  else
    { result := .error (.elementNotFound elemId), session := sess,
      actions := [.waitPresence elemId false], log := [] }

/-- External `WebDriverWait(driver, 10).until(element_to_be_clickable(id))`. -/
def webDriverWaitClickable (sess : Session) (elemId : String) (clickable : Bool) :
    Outcome Unit :=
  if clickable then
    { result := .ok (), session := sess, actions := [.waitClickable elemId true], log := [] }
  else
    { result := .error (.elementNotFound elemId), session := sess,
      actions := [.waitClickable elemId false], log := [] }

/-- External `WebDriverWait(driver, 10).until(url_contains(sub))`: on timeout
the flow's post-submit success condition was never satisfied
(`navigationTimeout`). -/
def webDriverWaitUrlContains (sess : Session) (sub : String) (contained : Bool) :
    Outcome Unit :=
  if contained then
    { result := .ok (), session := sess, actions := [.waitUrlContains sub true], log := [] }
  else
    { result := .error .navigationTimeout, session := sess,
      actions := [.waitUrlContains sub false], log := [] }

/-- External `element.send_keys(text)` on an element just located. -/
def sendKeysTo (sess : Session) (elemId text : String) : Outcome Unit :=
  { result := .ok (), session := sess, actions := [.sendKeys elemId text], log := [] }

/-- External `element.click()` on an element just located. -/
def clickOn (sess : Session) (elemId : String) : Outcome Unit :=
  { result := .ok (), session := sess, actions := [.click elemId], log := [] }

/-! Repository code, embedded from src/script2.py (the `WebDriverManager`
methods are textually identical in src/script1.py where both exist).
Every method body sits inside `try: ... except Exception as e: log; raise`,
which the two combinators below embed: on success append the method's info
log line, on error append an error log entry for the caught error and
re-raise exactly that error. -/

/-- The `try`/`except`/`raise` shape of the `WebDriverManager` methods:
on success of the body log `msg`, on error log the error and re-raise it
unchanged. -/
def logInfoOrReraise (msg : String) (o : Outcome Unit) : Outcome Unit :=
  match o.result with
  | .ok _ => { o with log := o.log ++ [.info msg] }
  | .error e => { o with log := o.log ++ [.errorLog e] }

/-- The `try`/`except`/`raise` shape of `login_platonus`, whose success
logging happens inside the body: on error log the error and re-raise it
unchanged, on success do nothing more. -/
def logAndReraise (o : Outcome Unit) : Outcome Unit :=
  match o.result with
  | .ok _ => o
  | .error e => { o with log := o.log ++ [.errorLog e] }

/-- `WebDriverManager.open_url` (src/script2.py lines 38-46, src/script1.py
lines 59-73): guard `not isinstance(url, str) or not url.startswith('http')`
raises `ValueError("Invalid URL provided")`; otherwise `driver.get(url)`.
The `except` clause logs any error and re-raises it unchanged. -/
def open_url (sess : Session) (url : PyValue) : Outcome Unit :=
  if url.isStr && pyStartsWith url.strVal "http" then
    logInfoOrReraise ("Opened URL: " ++ url.strVal) (driverGet sess url.strVal)
  else
    { result := .error (.invalidInput "Invalid URL provided"), session := sess,
      actions := [],
      log := [.errorLog (.invalidInput "Invalid URL provided")] }

/-- `WebDriverManager.wait` (src/script1.py lines 75-89): guard
`not isinstance(seconds, (int, float)) or seconds < 0` raises
`ValueError("Wait time must be a non-negative number")`; otherwise
`driver.implicitly_wait(seconds)`.  The `except` clause logs any error and
re-raises it unchanged. -/
def wait (sess : Session) (seconds : PyValue) : Outcome Unit :=
  if !seconds.isNumeric || seconds.toRat < 0 then
    { result := .error (.invalidInput "Wait time must be a non-negative number"),
      session := sess, actions := [],
      log := [.errorLog (.invalidInput "Wait time must be a non-negative number")] }
  else
    logInfoOrReraise "Implicit wait configured." (driverImplicitlyWait sess seconds.toRat)

/-- `WebDriverManager.quit_driver` (src/script2.py lines 48-54, src/script1.py
lines 91-100): `driver.quit()`, logging success; the `except` clause logs any
error and re-raises it unchanged. -/
def quit_driver (sess : Session) : Outcome Unit :=
  logInfoOrReraise "WebDriver quit successfully." (driverQuit sess)

/-- `WebDriverManager.execute_script` (src/script2.py lines 56-63,
src/script1.py lines 102-119). -/
def execute_script (sess : Session) (script : String) : Outcome Unit :=
  logInfoOrReraise ("Executed script: " ++ script) (driverExecuteScript sess script)

/-- `BrowserAutomation.perform_google_search` (src/script1.py lines 136-149):
builds `f"https://www.google.com/search?q={query}"` by plain interpolation
(no encoding) and hands it to `open_url`; the `except` clause logs any error
and re-raises it unchanged. -/
def perform_google_search (sess : Session) (query : String) : Outcome Unit :=
  let searchUrl := "https://www.google.com/search?q=" ++ query
  logInfoOrReraise ("Performed Google search for query: " ++ query)
    (open_url sess (.pyStr searchUrl))

/-- The fixed portal URL of the login flow (src/script2.py line 72). -/
def portalUrl : String := "https://platonus.iitu.edu.kz/"

/-- Step 2 of the login flow: bounded wait for the `login_input` field, then
inject the identifier (src/script2.py lines 75-78). -/
def enterLoginStep (env : Env) (login : String) (s : Session) : Outcome Unit :=
  (webDriverWaitPresence s "login_input" env.loginFieldAppears).andThen (fun s2 =>
    let o := sendKeysTo s2 "login_input" login
    { o with log := o.log ++ [.info "Entered login."] })

/-- Step 3 of the login flow: bounded wait for the `pass_input` field, then
inject the secret (src/script2.py lines 80-83). -/
def enterPasswordStep (env : Env) (password : String) (s : Session) : Outcome Unit :=
  (webDriverWaitPresence s "pass_input" env.passFieldAppears).andThen (fun s2 =>
    let o := sendKeysTo s2 "pass_input" password
    { o with log := o.log ++ [.info "Entered password."] })

/-- Step 4 of the login flow: bounded wait for the `Submit1` control to be
clickable, then click it (src/script2.py lines 85-88). -/
def clickSubmitStep (env : Env) (s : Session) : Outcome Unit :=
  (webDriverWaitClickable s "Submit1" env.submitClickable).andThen (fun s2 =>
    let o := clickOn s2 "Submit1"
    { o with log := o.log ++ [.info "Clicked login button."] })

/-- Step 5 of the login flow: bounded wait for the URL to contain
`/dashboard` (src/script2.py lines 90-93). -/
def dashboardWaitStep (env : Env) (s : Session) : Outcome Unit :=
  let o := webDriverWaitUrlContains s "/dashboard" env.urlHasDashboard
  match o.result with
  | .ok _ =>
    { o with log := o.log ++ [.info "Login successful, navigated to dashboard."] }
  | .error _ => o

/-- `BrowserAutomation.login_platonus` (src/script2.py lines 70-96): navigate
to the portal, then the four bounded-wait steps in order; the `except` clause
logs any error from the body and re-raises it unchanged. -/
def login_platonus (env : Env) (sess : Session) (login password : String) :
    Outcome Unit :=
  logAndReraise
    ((open_url sess (.pyStr portalUrl)).andThen (fun s1 =>
    (enterLoginStep env login s1).andThen (fun s2 =>
    (enterPasswordStep env password s2).andThen (fun s3 =>
    (clickSubmitStep env s3).andThen (fun s4 =>
    dashboardWaitStep env s4)))))

/-- `main` of src/script2.py (lines 98-112): builds a fresh session, runs the
login flow with the hardcoded credentials inside `try`, logs (without
re-raising) any error in `except`, and invokes `quit_driver` in `finally`. -/
def script2_main (env : Env) : Outcome Unit :=
  let o := login_platonus env initialSession "s.zhakypbekov@iitu.edu.kz" "Temp2022$"
  let caught : List LogEntry :=
    match o.result with
    | .ok _ => []
    | .error e => [.errorLog e]
  let q := quit_driver o.session
  { result := .ok (), session := q.session,
    actions := o.actions ++ q.actions,
    log := o.log ++ caught ++ q.log ++ [.info "Browser automation completed."] }

/-! Helper lemmas. -/

/-- The portal URL passes the `startswith('http')` guard. -/
theorem portalUrl_startsWith_http : pyStartsWith portalUrl "http" = true := by decide

/-- The wrapper keeps the wrapped operation's result unchanged. -/
theorem logInfoOrReraise_result (msg : String) (o : Outcome Unit) :
    (logInfoOrReraise msg o).result = o.result := by
  cases h : o.result <;> simp [logInfoOrReraise, h]

/-- The wrapper keeps the wrapped operation's result unchanged. -/
theorem logAndReraise_result (o : Outcome Unit) :
    (logAndReraise o).result = o.result := by
  cases h : o.result <;> simp [logAndReraise, h]

/-- The wrapper keeps the wrapped operation's actions unchanged. -/
theorem logInfoOrReraise_actions (msg : String) (o : Outcome Unit) :
    (logInfoOrReraise msg o).actions = o.actions := by
  cases h : o.result <;> simp [logInfoOrReraise, h]

/-- The wrapper keeps the wrapped operation's actions unchanged. -/
theorem logAndReraise_actions (o : Outcome Unit) :
    (logAndReraise o).actions = o.actions := by
  cases h : o.result <;> simp [logAndReraise, h]

/-- If the wrapped-and-reraised operation ends in error `e`, an error log
entry for exactly `e` is present in its log. -/
theorem logInfoOrReraise_error_logged (msg : String) (o : Outcome Unit) (e : Err)
    (h : (logInfoOrReraise msg o).result = .error e) :
    LogEntry.errorLog e ∈ (logInfoOrReraise msg o).log := by
  cases ho : o.result <;> simp [logInfoOrReraise, ho] at h ⊢
  exact Or.inr (by rw [← h])

/-- If the wrapped-and-reraised operation ends in error `e`, an error log
entry for exactly `e` is present in its log. -/
theorem logAndReraise_error_logged (o : Outcome Unit) (e : Err)
    (h : (logAndReraise o).result = .error e) :
    LogEntry.errorLog e ∈ (logAndReraise o).log := by
  cases ho : o.result <;> simp [logAndReraise, ho] at h ⊢
  exact Or.inr (by rw [← h])

/-! Claim theorems. -/

/-- C4: for every string beginning with the recognized scheme prefix `http`,
`open_url` on a live session succeeds and updates the session's location to
that string; for every other string (empty, or lacking the scheme) it fails
with the invalid-input error, performs no browser action (in particular the
load operation is never invoked), and leaves the session unchanged. -/
theorem open_url_guard_spec (s : String) (sess : Session)
    (hlive : sess.live = true) :
    (pyStartsWith s "http" = true →
      (open_url sess (.pyStr s)).result = .ok () ∧
      (open_url sess (.pyStr s)).session.location = s) ∧
    (pyStartsWith s "http" = false →
      (open_url sess (.pyStr s)).result = .error (.invalidInput "Invalid URL provided") ∧
      (open_url sess (.pyStr s)).actions = [] ∧
      (open_url sess (.pyStr s)).session = sess) := by
  constructor <;> intro h <;>
    simp [open_url, logInfoOrReraise, driverGet, PyValue.isStr, PyValue.strVal, h, hlive]

/-- Witness for C4: concrete valid and invalid URLs on a fresh session. -/
theorem open_url_guard_spec_witness :
    ((open_url initialSession (.pyStr "https://example.com")).result = .ok () ∧
      (open_url initialSession (.pyStr "https://example.com")).session.location =
        "https://example.com") ∧
    ((open_url initialSession (.pyStr "not-a-url")).result =
        .error (.invalidInput "Invalid URL provided") ∧
      (open_url initialSession (.pyStr "not-a-url")).actions = [] ∧
      (open_url initialSession (.pyStr "not-a-url")).session = initialSession) :=
  ⟨(open_url_guard_spec "https://example.com" initialSession rfl).1 (by decide),
   (open_url_guard_spec "not-a-url" initialSession rfl).2 (by decide)⟩

/-- C10: for every input value that is not a string at all, `open_url`
raises the invalid-input error, performs no browser action, and leaves the
session unchanged. -/
theorem open_url_non_string_rejected (v : PyValue) (sess : Session)
    (h : v.isStr = false) :
    (open_url sess v).result = .error (.invalidInput "Invalid URL provided") ∧
    (open_url sess v).actions = [] ∧
    (open_url sess v).session = sess := by
  simp [open_url, h]

/-- Witness for C10: `open_url` applied to the `None` value. -/
theorem open_url_non_string_rejected_witness :
    (open_url initialSession .pyNone).result =
        .error (.invalidInput "Invalid URL provided") ∧
    (open_url initialSession .pyNone).actions = [] ∧
    (open_url initialSession .pyNone).session = initialSession :=
  open_url_non_string_rejected .pyNone initialSession rfl

/-- C6: on a live session, `wait` succeeds for every numeric value that is
non-negative, and fails with the invalid-input error for every value that is
non-numeric or negative. -/
theorem wait_guard_spec (v : PyValue) (sess : Session) (hlive : sess.live = true) :
    ((v.isNumeric = true ∧ 0 ≤ v.toRat) → (wait sess v).result = .ok ()) ∧
    ((v.isNumeric = false ∨ v.toRat < 0) →
      (wait sess v).result =
        .error (.invalidInput "Wait time must be a non-negative number")) := by
  constructor
  · rintro ⟨hn, hge⟩
    simp [wait, logInfoOrReraise, driverImplicitlyWait, hn, hlive, not_lt.mpr hge]
  · rintro (hn | hneg)
    · simp [wait, hn]
    · simp [wait, hneg]

/-- Witness for C6: `wait 5` succeeds and `wait (-1)` fails on a fresh
session. -/
theorem wait_guard_spec_witness :
    (wait initialSession (.pyInt 5)).result = .ok () ∧
    (wait initialSession (.pyInt (-1))).result =
      .error (.invalidInput "Wait time must be a non-negative number") :=
  ⟨(wait_guard_spec (.pyInt 5) initialSession rfl).1 ⟨rfl, by norm_num [PyValue.toRat]⟩,
   (wait_guard_spec (.pyInt (-1)) initialSession rfl).2
     (Or.inr (by norm_num [PyValue.toRat]))⟩

/-- C9: the guard of `wait` accepts the boolean `True` (an instance of the
integer type with value 1): no invalid-input error is raised and the
implicit wait is configured. -/
theorem wait_accepts_boolean_true :
    (wait initialSession (.pyBool true)).result = .ok () ∧
    Action.implicitlyWait 1 ∈ (wait initialSession (.pyBool true)).actions ∧
    (wait initialSession (.pyBool true)).session.implicitWait = some 1 := by
  decide

/-- C1: on a live session the login flow succeeds (reaches `LoggedIn`) if
and only if all four bounded waits succeed; moreover a successful run
performed exactly the expected browser actions, in order (navigate, wait
and enter identifier, wait and enter secret, wait and click submit, wait
for the dashboard URL), so success implies every wait succeeded and any
failed wait excludes success. -/
theorem login_flow_loggedIn_iff (env : Env) (sess : Session) (l p : String)
    (hlive : sess.live = true) :
    ((login_platonus env sess l p).result = .ok () ↔
      (env.loginFieldAppears = true ∧ env.passFieldAppears = true ∧
        env.submitClickable = true ∧ env.urlHasDashboard = true)) ∧
    ((login_platonus env sess l p).result = .ok () →
      (login_platonus env sess l p).actions =
        [.get portalUrl,
         .waitPresence "login_input" true, .sendKeys "login_input" l,
         .waitPresence "pass_input" true, .sendKeys "pass_input" p,
         .waitClickable "Submit1" true, .click "Submit1",
         .waitUrlContains "/dashboard" true]) := by
  obtain ⟨a, b, c, d⟩ := env
  cases a <;> cases b <;> cases c <;> cases d <;>
    simp [login_platonus, logAndReraise, open_url, logInfoOrReraise, driverGet,
      enterLoginStep, enterPasswordStep, clickSubmitStep, dashboardWaitStep,
      webDriverWaitPresence, webDriverWaitClickable, webDriverWaitUrlContains,
      sendKeysTo, clickOn, Outcome.andThen, PyValue.isStr, PyValue.strVal,
      portalUrl_startsWith_http, hlive]

/-- Witness for C1: with all four waits succeeding on a fresh session the
flow ends in success. -/
theorem login_flow_loggedIn_iff_witness :
    (login_platonus ⟨true, true, true, true⟩ initialSession "user" "pw").result =
      .ok () :=
  ((login_flow_loggedIn_iff ⟨true, true, true, true⟩ initialSession "user" "pw"
      rfl).1).2 ⟨rfl, rfl, rfl, rfl⟩

/-- C2: if the identifier field never appears within its timeout, the flow
fails with `elementNotFound "login_input"` and the secret is never injected:
no action of steps 3-5 (secret-field wait, secret entry, submit wait, click,
URL wait) occurs in the trace. -/
theorem identifier_timeout_aborts_flow (env : Env) (sess : Session) (l p : String)
    (hlive : sess.live = true) (hno : env.loginFieldAppears = false) :
    (login_platonus env sess l p).result = .error (.elementNotFound "login_input") ∧
    (∀ t, Action.sendKeys "pass_input" t ∉ (login_platonus env sess l p).actions) ∧
    (∀ b, Action.waitPresence "pass_input" b ∉ (login_platonus env sess l p).actions) ∧
    (∀ b, Action.waitClickable "Submit1" b ∉ (login_platonus env sess l p).actions) ∧
    Action.click "Submit1" ∉ (login_platonus env sess l p).actions ∧
    (∀ b, Action.waitUrlContains "/dashboard" b ∉ (login_platonus env sess l p).actions) := by
  simp [login_platonus, logAndReraise, open_url, logInfoOrReraise, driverGet,
    enterLoginStep, enterPasswordStep, clickSubmitStep, dashboardWaitStep,
    webDriverWaitPresence, webDriverWaitClickable, webDriverWaitUrlContains,
    sendKeysTo, clickOn, Outcome.andThen, PyValue.isStr, PyValue.strVal,
    portalUrl_startsWith_http, hlive, hno]

/-- Witness for C2: identifier wait fails on a fresh session. -/
theorem identifier_timeout_aborts_flow_witness :
    (login_platonus ⟨false, true, true, true⟩ initialSession "user" "pw").result =
        .error (.elementNotFound "login_input") ∧
    (∀ t, Action.sendKeys "pass_input" t ∉
      (login_platonus ⟨false, true, true, true⟩ initialSession "user" "pw").actions) :=
  ⟨(identifier_timeout_aborts_flow ⟨false, true, true, true⟩ initialSession
      "user" "pw" rfl rfl).1,
   (identifier_timeout_aborts_flow ⟨false, true, true, true⟩ initialSession
      "user" "pw" rfl rfl).2.1⟩

/-- C5: once the first three waits have succeeded the flow is in the
`Submitted` state; it then ends in success exactly when the URL comes to
contain `/dashboard` within the timeout, and fails with
`navigationTimeout` otherwise. -/
theorem submitted_dashboard_gate (env : Env) (sess : Session) (l p : String)
    (hlive : sess.live = true)
    (h1 : env.loginFieldAppears = true) (h2 : env.passFieldAppears = true)
    (h3 : env.submitClickable = true) :
    (env.urlHasDashboard = true → (login_platonus env sess l p).result = .ok ()) ∧
    (env.urlHasDashboard = false →
      (login_platonus env sess l p).result = .error .navigationTimeout) := by
  constructor <;> intro h <;>
    simp [login_platonus, logAndReraise, open_url, logInfoOrReraise, driverGet,
      enterLoginStep, enterPasswordStep, clickSubmitStep, dashboardWaitStep,
      webDriverWaitPresence, webDriverWaitClickable, webDriverWaitUrlContains,
      sendKeysTo, clickOn, Outcome.andThen, PyValue.isStr, PyValue.strVal,
      portalUrl_startsWith_http, hlive, h1, h2, h3, h]

/-- Witness for C5: the first three waits succeed; the flow succeeds when
the dashboard URL appears and times out when it does not. -/
theorem submitted_dashboard_gate_witness :
    (login_platonus ⟨true, true, true, true⟩ initialSession "user" "pw").result ≠
        .error .navigationTimeout ∧
    (login_platonus ⟨true, true, true, false⟩ initialSession "user" "pw").result =
        .error .navigationTimeout :=
  ⟨by
    rw [(submitted_dashboard_gate ⟨true, true, true, true⟩ initialSession "user" "pw"
      rfl rfl rfl rfl).1 rfl]
    simp,
   (submitted_dashboard_gate ⟨true, true, true, false⟩ initialSession "user" "pw"
      rfl rfl rfl rfl).2 rfl⟩

/-- C3: in every environment, `main` of src/script2.py invokes session
shutdown exactly once (one `quit` action in its trace, whichever state the
login flow failed in, success included), and a second `quit_driver` call on
the already-closed session still succeeds (no error raised). -/
theorem quit_exactly_once_and_idempotent :
    (∀ env : Env, ((script2_main env).actions.count Action.quit) = 1) ∧
    (∀ s : Session, (quit_driver ((quit_driver s).session)).result = .ok () ∧
      ((quit_driver s).session).live = false) := by
  constructor
  · intro env
    obtain ⟨a, b, c, d⟩ := env
    cases a <;> cases b <;> cases c <;> cases d <;> decide
  · intro s
    simp [quit_driver, logInfoOrReraise, driverQuit]

/-- Helper for C8: the constructed search URL always passes the
`startswith('http')` guard, whatever the query. -/
theorem searchUrl_startsWith_http (q : String) :
    pyStartsWith ("https://www.google.com/search?q=" ++ q) "http" = true := by
  unfold pyStartsWith
  rw [List.isPrefixOf_iff_prefix, String.data_append]
  exact List.IsPrefix.trans (by decide)
    (List.prefix_append "https://www.google.com/search?q=".data q.data)

/-- C8: `perform_google_search` navigates to exactly the literal
concatenation of the Google search prefix with the raw query (no encoding):
on a live session that exact URL is loaded, any URL it ever loads is that
exact string, and the invalid-URL error is never raised, for any query. -/
theorem google_search_exact_url (sess : Session) (q : String) :
    (sess.live = true →
      Action.get ("https://www.google.com/search?q=" ++ q) ∈
        (perform_google_search sess q).actions) ∧
    (∀ u, Action.get u ∈ (perform_google_search sess q).actions →
      u = "https://www.google.com/search?q=" ++ q) ∧
    (∀ m, (perform_google_search sess q).result ≠ .error (.invalidInput m)) := by
  cases hl : sess.live <;>
    simp [perform_google_search, open_url, logInfoOrReraise, driverGet,
      PyValue.isStr, PyValue.strVal, searchUrl_startsWith_http, hl]

/-- Witness for C8: the concrete query of src/script1.py `main`. -/
theorem google_search_exact_url_witness :
    Action.get "https://www.google.com/search?q=OpenAI" ∈
      (perform_google_search initialSession "OpenAI").actions :=
  (google_search_exact_url initialSession "OpenAI").1 rfl

/-- C7: for every operation of the Driver Session wrapper and the Login
Flow, an error outcome is always logged at its detection point (an error
log entry for exactly the propagated error value is in the operation's
log), the `except` wrappers re-raise the very result of the wrapped body
(no substitution, no local recovery), and no browser action is ever
performed twice in a login-flow run (no retry of a failed or succeeded
step). -/
theorem errors_logged_propagated_no_retry (env : Env) (sess : Session)
    (l p : String) (u v : PyValue) (q sc : String) :
    (∀ e, (open_url sess u).result = .error e →
      LogEntry.errorLog e ∈ (open_url sess u).log) ∧
    (∀ e, (wait sess v).result = .error e →
      LogEntry.errorLog e ∈ (wait sess v).log) ∧
    (∀ e, (quit_driver sess).result = .error e →
      LogEntry.errorLog e ∈ (quit_driver sess).log) ∧
    (∀ e, (execute_script sess sc).result = .error e →
      LogEntry.errorLog e ∈ (execute_script sess sc).log) ∧
    (∀ e, (perform_google_search sess q).result = .error e →
      LogEntry.errorLog e ∈ (perform_google_search sess q).log) ∧
    (∀ e, (login_platonus env sess l p).result = .error e →
      LogEntry.errorLog e ∈ (login_platonus env sess l p).log) ∧
    (∀ msg o, (logInfoOrReraise msg o).result = o.result) ∧
    (∀ o, (logAndReraise o).result = o.result) ∧
    (login_platonus env sess l p).actions.Nodup := by
  refine ⟨?_, ?_, ?_, ?_, ?_, ?_, logInfoOrReraise_result, logAndReraise_result, ?_⟩
  · intro e he
    by_cases hg : (u.isStr && pyStartsWith u.strVal "http") = true
    · simp only [open_url, if_pos hg] at he ⊢
      exact logInfoOrReraise_error_logged _ _ _ he
    · simp only [open_url, if_neg hg] at he ⊢
      simp_all
  · intro e he
    by_cases hg : (!v.isNumeric || decide (v.toRat < 0)) = true
    · simp only [wait, Bool.or_eq_true, decide_eq_true_eq, ← Bool.or_eq_true, if_pos hg]
        at he ⊢
      simp_all
    · simp only [wait, Bool.or_eq_true, decide_eq_true_eq, ← Bool.or_eq_true, if_neg hg]
        at he ⊢
      exact logInfoOrReraise_error_logged _ _ _ he
  · intro e he
    exact logInfoOrReraise_error_logged _ _ _ he
  · intro e he
    exact logInfoOrReraise_error_logged _ _ _ he
  · intro e he
    exact logInfoOrReraise_error_logged _ _ _ he
  · intro e he
    exact logAndReraise_error_logged _ _ he
  · obtain ⟨a, b, c, d⟩ := env
    cases hl : sess.live <;> cases a <;> cases b <;> cases c <;> cases d <;>
      simp [login_platonus, logAndReraise, open_url, logInfoOrReraise, driverGet,
        enterLoginStep, enterPasswordStep, clickSubmitStep, dashboardWaitStep,
        webDriverWaitPresence, webDriverWaitClickable, webDriverWaitUrlContains,
        sendKeysTo, clickOn, Outcome.andThen, PyValue.isStr, PyValue.strVal,
        portalUrl_startsWith_http, hl, List.nodup_cons]

/-- Witness for C7: with the identifier wait failing, the flow's propagated
error is present in its log. -/
theorem errors_logged_propagated_no_retry_witness :
    LogEntry.errorLog (Err.elementNotFound "login_input") ∈
      (login_platonus ⟨false, true, true, true⟩ initialSession "user" "pw").log :=
  (errors_logged_propagated_no_retry ⟨false, true, true, true⟩ initialSession
      "user" "pw" .pyNone .pyNone "q" "s").2.2.2.2.2.1
    (Err.elementNotFound "login_input") (by decide)

end Platonus
